import Mathlib

/-!
Verification of the CAR-T detection workflow (`car_t_detection.ipynb`).

The notebook orchestrates the external Cell Ranger pipeline and post-processes
its output with scanpy.  The shallow embedding below translates the notebook's
own logic: the custom-reference construction (section 3), the shell invocations
of the external pipeline (sections 3.2 and 4), the CAR classifier (section 5.1),
the guards of the downstream cells (sections 5.2-5.5), the marker-scoring loop
(section 5.4) and the export filter (section 5.5).  External library calls
(Cell Ranger itself, `sc.tl.score_genes`, `sc.tl.leiden`, plotting) are either
parameters of the embedded functions or out of scope, as the specification
declares them external collaborators.
-/

/-! ## Section 3: custom reference construction -/

/-- The engineered CAR construct, verbatim the notebook's triple-quoted
`CAR_SEQUENCE` string: a leading newline, a FASTA header line and one
sequence line, followed by a trailing newline. -/
def CAR_SEQUENCE : String :=
  "\n>CAR_CD19\nATGGCCTTACCAGTGACCGCCTTGCTCCTGCCGCTGGCCTTGCTGCTCCACGCCGCCAGGCCGGGATCCCAGGTGCAGCTGCAGGAG...\n"

/-- Python's `s.split('\n')`: split a string at every newline character.
Working on the character list keeps the definition kernel-evaluable. -/
def splitNewlines (s : String) : List String :=
  (s.data.splitOn '\n').map (fun cs => String.mk cs)

/-- The lines of the CAR FASTA file (the notebook writes `CAR_SEQUENCE`
verbatim to `car_sequence.fa`). -/
def carFastaLines : List String := splitNewlines CAR_SEQUENCE

/-- `CAR_SEQUENCE.split('\n')[1]` of the source: because `CAR_SEQUENCE`
starts with a newline, index 1 is the FASTA header line `>CAR_CD19`. -/
def carSplitIndexOne : String := carFastaLines.getD 1 ""

/-- The engineered nucleotide sequence itself: the single sequence line of
the CAR FASTA record (index 2 of the split, after the header). -/
def carSeqLine : String := carFastaLines.getD 2 ""

/-- The end coordinate the notebook writes into the CAR GTF feature:
`len(CAR_SEQUENCE.split('\n')[1])` (the feature starts at 1, so this is also
the feature's span length). -/
def carGtfSpanEnd : Nat := carSplitIndexOne.length

/-- The notebook's `car_gtf_content` string: one GTF feature line for the
engineered gene, with the formatted end coordinate, surrounded by newlines. -/
def carGtfContent : String :=
  "\nCAR_CD19\tunknown\texon\t1\t" ++ toString carGtfSpanEnd ++
    "\t.\t+\t.\tgene_id \"CAR_CD19\"; transcript_id \"CAR_CD19\"; gene_name \"CAR_CD19\";\n"

/-- Number of FASTA records in a file given as its list of lines: the number
of header lines (lines starting with `>`). -/
def fastaRecordCount (lines : List String) : Nat :=
  lines.countP (fun l => l.data.headD ' ' == '>')

/-- `cat {REF_GENOME} {car_fasta_path} > {combined_fasta}` at line
granularity (the reference FASTA ends with a newline, and `CAR_SEQUENCE`
itself begins with one, so the concatenation is exactly line append). -/
def combinedFastaLines (refLines : List String) : List String :=
  refLines ++ carFastaLines

/-- `cat {REF_GTF} {car_gtf_path} > {combined_gtf}` at line granularity. -/
def combinedGtfLines (refLines : List String) : List String :=
  refLines ++ splitNewlines carGtfContent

/-- The gene identifiers of the combined annotation: the input annotation's
gene identifiers followed by the one identifier the appended CAR feature
carries (`gene_id "CAR_CD19"`).  The builder is plain concatenation: no
lookup into the existing identifiers happens anywhere in the notebook. -/
def combinedGtfGeneIds (refIds : List String) : List String :=
  refIds ++ ["CAR_CD19"]

/-! ## Sections 3.2 and 4: the external pipeline invocations

The notebook runs `cellranger mkref` and `cellranger count` through IPython
shell lines.  Nothing in the notebook reads `$?`, passes `check=True`, or
branches on the outcome: a shell line's exit status is discarded and the next
cell runs regardless.  The embedding makes the exit statuses explicit inputs
and records which steps execute. -/

/-- The six stages of the workflow named by the specification's state
machine: Reference Build, Align, Load, Classify, Profile, Export. -/
inductive WorkStep
  | refBuild
  | align
  | load
  | classify
  | profile
  | exportResults
deriving DecidableEq

/-- Exit statuses of the two external `cellranger` invocations. -/
structure ExitCodes where
  mkref : Int
  quantify : Int
deriving DecidableEq

/-- The cells the notebook executes, in order.  The exit statuses are never
inspected by any cell, so the executed sequence does not depend on them. -/
def runWorkflow (_codes : ExitCodes) : List WorkStep :=
  [WorkStep.refBuild, WorkStep.align, WorkStep.load, WorkStep.classify,
    WorkStep.profile, WorkStep.exportResults]

/-! ## Section 5: the in-memory analysis session

`Session` carries the parts of the `AnnData` object the notebook's own logic
reads or writes: the gene names (`adata.var_names`), the raw count matrix
(`adata.X` as loaded, rows = cells), the `obs` columns the notebook adds, and
the `uns` flag for the differential-expression result.  The numeric in-place
transform of `adata.X` performed by section 5.2 (`sc.pp.normalize_total` and
`sc.pp.log1p`) is real-valued and is modelled separately by `profileX`
below. -/

structure Session where
  varNames : List String
  X : List (List ℚ)
  carCounts : Option (List ℚ)
  carPositive : Option (List Bool)
  leiden : Option (List Nat)
  scoreCols : List (String × List ℚ)
  rankGenes : Bool
  comparisonRan : Bool
deriving DecidableEq

/-- The state right after section 5's load cell (`sc.read_10x_mtx`): gene
names and raw counts are read from disk; none of the notebook's derived
columns exist yet. -/
def mkLoaded (varNames : List String) (X : List (List ℚ)) : Session :=
  Session.mk varNames X none none none [] false false

/-- What the classifier cell prints: either the number of CAR-positive cells
together with their percentage, or the not-found message
(`"CAR_CD19 not found in the dataset. Check your reference and sequence
names."`). -/
inductive CarReport
  | found (nPositive : Nat) (pct : ℚ)
  | notFound
deriving DecidableEq

/-- `adata[:, 'CAR_CD19'].X.toarray().flatten()`: the per-cell column of the
count matrix at the engineered gene's position in `var_names`. -/
def carCol (s : Session) : List ℚ :=
  s.X.map (fun row => row.getD (s.varNames.indexOf "CAR_CD19") 0)

/-- Section 5.1.  `if 'CAR_CD19' in adata.var_names:` add the `car_counts`
column, the `car_positive = car_counts > 0` column, and print the positive
count and percentage; `else` print the not-found message and leave the
object untouched. -/
def classify51 (s : Session) : Session × CarReport :=
  if "CAR_CD19" ∈ s.varNames then
    let counts := carCol s
    let pos := counts.map (fun c => decide (0 < c))
    let n := pos.count true
    (Session.mk s.varNames s.X (some counts) (some pos) s.leiden s.scoreCols
        s.rankGenes s.comparisonRan,
      CarReport.found n ((n : ℚ) / (s.X.length : ℚ) * 100))
  else (s, CarReport.notFound)

/-- The message scanpy raises for a plot color key that is neither an `obs`
column nor a gene name. -/
def umapKeyError : String :=
  "Could not find key car_positive in .var_names or .obs.columns."

/-- Section 5.2.  The preprocessing calls run first — `sc.tl.leiden` adds
the cluster labels (the labels come from the external Leiden algorithm,
hence the parameter), and the in-place numeric rewrite of `adata.X` by
`normalize_total`/`log1p` is modelled by `profileX` below.  The cell then
calls `sc.pl.umap(adata, color='car_positive', ...)` WITHOUT any guard:
scanpy resolves the color key against `.obs.columns` and `.var_names` and
raises when it appears in neither, so when the classifier's else branch
left the `car_positive` column uncreated (and no gene is literally named
`car_positive`) this cell raises and the notebook halts here.  The cell's
second plot is guarded by `if 'CAR_CD19' in adata.var_names` and cannot
raise. -/
def viz52 (clusters : List Nat) (s : Session) : Except String Session :=
  if s.carPositive.isSome ∨ "car_positive" ∈ s.varNames then
    Except.ok (Session.mk s.varNames s.X s.carCounts s.carPositive
      (some clusters) s.scoreCols s.rankGenes s.comparisonRan)
  else Except.error umapKeyError

/-- Section 5.3.  `if 'car_positive' in adata.obs.columns:` run
`sc.tl.rank_genes_groups` (recorded as the `rankGenes` flag for the
`uns['rank_genes_groups']` entry); `else` print a notice and change
nothing. -/
def de53 (s : Session) : Session :=
  if s.carPositive.isSome then
    Session.mk s.varNames s.X s.carCounts s.carPositive s.leiden s.scoreCols
      true s.comparisonRan
  else s

/-- The notebook's `t_cell_markers` dictionary, verbatim. -/
def tCellMarkers : List (String × List String) :=
  [("CD4+ T", ["CD4", "IL7R"]),
   ("CD8+ T", ["CD8A", "CD8B"]),
   ("Regulatory T", ["FOXP3", "IL2RA"]),
   ("Naive T", ["CCR7", "LEF1", "TCF7"]),
   ("Memory T", ["IL7R", "S100A4"]),
   ("Effector T", ["GZMA", "GZMB", "PRF1"]),
   ("Exhausted T", ["PDCD1", "HAVCR2", "LAG3", "TIGIT"])]

/-- The scoring loop of section 5.4: for each subset, keep only the markers
present in `var_names`; if any remain, call `sc.tl.score_genes` on exactly
those markers and store the result under `{cell_type}_score`; otherwise add
nothing for that subset.  `score` stands for the external
`sc.tl.score_genes` routine (one score per cell for a given gene list). -/
def scoreSubsetsLoop (varNames : List String) (score : List String → List ℚ)
    (markerSets : List (String × List String)) : List (String × List ℚ) :=
  markerSets.filterMap (fun p =>
    let present := p.2.filter (fun m => decide (m ∈ varNames))
    if present.isEmpty then none else some (p.1 ++ "_score", score present))

/-- Section 5.4 on the session: run the scoring loop over `t_cell_markers`,
then (`if score_cols: ... if 'car_positive' in adata.obs.columns:`) draw the
per-subset comparison boxplots — recorded as the `comparisonRan` flag. -/
def score54 (score : List String → List ℚ) (s : Session) : Session :=
  let cols := scoreSubsetsLoop s.varNames score tCellMarkers
  Session.mk s.varNames s.X s.carCounts s.carPositive s.leiden cols
    s.rankGenes (!cols.isEmpty && s.carPositive.isSome)

/-- One row of `adata.obs` as far as the CSV export is concerned: the
per-cell metadata columns the notebook added. -/
structure CellRow where
  carCount : ℚ
  carPositive : Bool
deriving DecidableEq

/-- `adata.obs[adata.obs['car_positive']]`: boolean-mask selection of the
CAR-positive rows. -/
def carPositiveCells (obsRows : List CellRow) : List CellRow :=
  obsRows.filter (fun r => r.carPositive)

/-- The `obs` rows of a session, zipping the two CAR columns (they are
created together by the classifier cell). -/
def obsRows (s : Session) : List CellRow :=
  ((s.carCounts.getD []).zip (s.carPositive.getD [])).map
    (fun p => CellRow.mk p.1 p.2)

/-- Section 5.5, CSV part: `if 'car_positive' in adata.obs.columns:` write
the CAR-positive rows to `{SAMPLE_NAME}_car_positive_cells.csv`; otherwise
no CSV is written. -/
def exportCsv (s : Session) : Option (List CellRow) :=
  if s.carPositive.isSome then some (carPositiveCells (obsRows s)) else none

/-- Everything section 5 produces after the load cell: the final session,
what the classifier printed, the object serialized by the unconditional
`adata.write(results_file)`, and the optional CSV. -/
structure RunOutputs where
  final : Session
  report : CarReport
  h5ad : Session
  csv : Option (List CellRow)
deriving DecidableEq

/-- Sections 5.1-5.5 in notebook order, starting from a freshly loaded
session.  If the unguarded plot of section 5.2 raises, the notebook halts:
sections 5.3-5.5 never run and no file is written, so the run yields the
error instead of outputs. -/
def postLoad (clusters : List Nat) (score : List String → List ℚ)
    (s0 : Session) : Except String RunOutputs :=
  let c := classify51 s0
  match viz52 clusters c.1 with
  | Except.error e => Except.error e
  | Except.ok s2 =>
    let s3 := de53 s2
    let s4 := score54 score s3
    Except.ok (RunOutputs.mk s4 c.2 s4 (exportCsv s4))

/-- Replace a session's count matrix, leaving every other component alone
(used to state that the CSV export does not read the matrix). -/
def setX (s : Session) (X' : List (List ℚ)) : Session :=
  Session.mk s.varNames X' s.carCounts s.carPositive s.leiden s.scoreCols
    s.rankGenes s.comparisonRan

/-! ## Section 5.2: the in-place numeric transform of `adata.X`

`sc.pp.normalize_total(adata, target_sum=1e4)` rescales every cell's row to
total `1e4`, and `sc.pp.log1p(adata)` then replaces every entry `x` by
`log(1 + x)`; both write `adata.X` in place.  Idealizing the floating-point
arithmetic over `ℚ`/`ℝ`: -/

/-- Total-count normalization: entry `x` of a row becomes
`x / (row sum) * target`. -/
def normalizeTotal (target : ℚ) (X : List (List ℚ)) : List (List ℚ) :=
  X.map (fun row => row.map (fun x => x / row.sum * target))

/-- `log1p` on one entry. -/
noncomputable def log1p (x : ℚ) : ℝ := Real.log (1 + (x : ℝ))

/-- The value of `adata.X` after section 5.2's two preprocessing calls. -/
noncomputable def profileX (X : List (List ℚ)) : List (List ℝ) :=
  (normalizeTotal 10000 X).map (fun row => row.map log1p)

/-- A concrete score function used by witnesses below in place of the
external `sc.tl.score_genes`. -/
def constScore (gs : List String) : List ℚ := [(gs.length : ℚ)]

/-! ## Helper lemmas -/

/-- Appending the same string on the right is injective. -/
lemma string_append_right_cancel {a b s : String} (h : a ++ s = b ++ s) :
    a = b := by
  cases a with
  | mk da =>
    cases b with
    | mk db =>
      cases s with
      | mk ds =>
        have hd : da ++ ds = db ++ ds := congrArg String.data h
        exact congrArg String.mk (List.append_cancel_right hd)

/-- In a list of key-value pairs whose keys are distinct, a key determines
its value. -/
lemma value_eq_of_nodup_keys {β : Type} :
    ∀ {l : List (String × β)}, (l.map Prod.fst).Nodup →
      ∀ {a : String} {b c : β}, (a, b) ∈ l → (a, c) ∈ l → b = c := by
  intro l
  induction l with
  | nil => intro _ a b c hb; cases hb
  | cons p t ih =>
    intro hnd a b c hb hc
    have hnd' : (t.map Prod.fst).Nodup := (List.nodup_cons.mp hnd).2
    have hhead : p.1 ∉ t.map Prod.fst := (List.nodup_cons.mp hnd).1
    rcases List.mem_cons.mp hb with hb1 | hb2
    · rcases List.mem_cons.mp hc with hc1 | hc2
      · rw [← hb1] at hc1
        exact (Prod.mk.injEq _ _ _ _).mp hc1.symm |>.2
      · exfalso
        apply hhead
        have : a = p.1 := congrArg Prod.fst hb1
        rw [← this]
        exact List.mem_map.mpr ⟨(a, c), hc2, rfl⟩
    · rcases List.mem_cons.mp hc with hc1 | hc2
      · exfalso
        apply hhead
        have : a = p.1 := congrArg Prod.fst hc1
        rw [← this]
        exact List.mem_map.mpr ⟨(a, b), hb2, rfl⟩
      · exact ih hnd' hb2 hc2

/-- Evaluation of the section 5.2 matrix transform on a one-cell, one-gene
matrix holding a single raw count of 1. -/
lemma profileX_one_eval : profileX [[(1 : ℚ)]] = [[Real.log 10001]] := by
  simp only [profileX, normalizeTotal, log1p, List.map_cons, List.map_nil,
    List.sum_cons, List.sum_nil]
  norm_num

/-- `1 < log 10001`, so `log1p` moves the normalized entry away from the
original raw count. -/
lemma one_lt_log_ten_thousand_one : (1 : ℝ) < Real.log 10001 := by
  have h : Real.exp 1 < 10001 :=
    lt_trans Real.exp_one_lt_d9 (by norm_num)
  exact (Real.lt_log_iff_exp_lt (by norm_num)).mpr h

/-! ## Claim theorems -/

/-- C1: For every input genome FASTA and annotation plus the engineered CAR
sequence, the combined reference's record count is the original count plus
one and the combined annotation gains exactly one feature line — both hold —
but the new feature's span does NOT equal the engineered sequence's length:
the notebook computes the span as `len(CAR_SEQUENCE.split('\n')[1])`, and
because `CAR_SEQUENCE` begins with a newline, index 1 is the FASTA header
line `>CAR_CD19`, so the written span is 9 while the engineered sequence is
90 nucleotides long. -/
theorem c1_gtf_span_bug :
    (∀ refLines : List String,
        fastaRecordCount (combinedFastaLines refLines)
          = fastaRecordCount refLines + 1) ∧
    (splitNewlines carGtfContent).countP (fun l => decide (l ≠ "")) = 1 ∧
    carGtfSpanEnd = 9 ∧ carSeqLine.length = 90 ∧
    carGtfSpanEnd ≠ carSeqLine.length := by
  refine ⟨?_, by decide, by decide, by decide, by decide⟩
  intro refLines
  simp only [fastaRecordCount, combinedFastaLines, List.countP_append]
  have hcar : List.countP (fun l => l.data.headD ' ' == '>') carFastaLines = 1 := by
    decide
  omega

/-- C2: when the engineered gene identifier is absent from the loaded
matrix's gene set, the classifier reports the distinct not-found outcome and
never the found-outcome with zero positive cells. -/
theorem c2_absent_gene_report (s : Session)
    (h : "CAR_CD19" ∉ s.varNames) :
    (classify51 s).2 = CarReport.notFound ∧
    ∀ pct : ℚ, (classify51 s).2 ≠ CarReport.found 0 pct := by
  have h0 : (classify51 s).2 = CarReport.notFound := by
    simp [classify51, h]
  refine ⟨h0, fun pct hc => ?_⟩
  rw [h0] at hc
  exact CarReport.noConfusion hc

/-- Witness for C2 at a concrete matrix lacking the engineered gene. -/
theorem c2_absent_gene_report_witness :
    (classify51 (mkLoaded ["GENE1"] [[0], [2]])).2 = CarReport.notFound ∧
    (classify51 (mkLoaded ["GENE1"] [[0], [2]])).2 ≠ CarReport.found 0 0 :=
  ⟨(c2_absent_gene_report (mkLoaded ["GENE1"] [[0], [2]]) (by decide)).1,
    (c2_absent_gene_report (mkLoaded ["GENE1"] [[0], [2]]) (by decide)).2 0⟩

/-- C3 counterexample: with the quantification invocation exiting with
status 1, the Load step (and every later step) still executes — the claim
that no subsequent step runs after a failed external invocation is false of
the notebook, whose shell lines never have their exit status checked. -/
theorem c3_counterexample :
    (ExitCodes.mk 0 1).quantify ≠ 0 ∧
    WorkStep.load ∈ runWorkflow (ExitCodes.mk 0 1) ∧
    WorkStep.exportResults ∈ runWorkflow (ExitCodes.mk 0 1) := by
  decide

/-- C3 amended: the notebook never inspects the exit statuses of the
external `cellranger mkref` and `cellranger count` invocations; whatever
those statuses are, every step of the workflow — Reference Build, Align,
Load, Classify, Profile, Export — executes in order. -/
theorem c3_no_exit_check (codes : ExitCodes) :
    runWorkflow codes
      = [WorkStep.refBuild, WorkStep.align, WorkStep.load, WorkStep.classify,
          WorkStep.profile, WorkStep.exportResults] := rfl

/-- C5 counterexample: fed an annotation that already uses the engineered
identifier, the builder outputs a combined annotation carrying `CAR_CD19`
twice — no collision detection and no rejection happen. -/
theorem c5_counterexample :
    (combinedGtfGeneIds ["CAR_CD19"]).count "CAR_CD19" = 2 ∧
    combinedGtfGeneIds ["CAR_CD19"] = ["CAR_CD19", "CAR_CD19"] := by
  decide

/-- C5 amended: the reference builder concatenates blindly and performs no
collision check; the engineered identifier is unique in the combined
annotation exactly when the input annotation does not already contain it. -/
theorem c5_no_collision_check (refIds : List String)
    (h : "CAR_CD19" ∉ refIds) :
    (combinedGtfGeneIds refIds).count "CAR_CD19" = 1 := by
  simp [combinedGtfGeneIds, List.count_append, List.count_eq_zero.mpr h]

/-- Witness for the amended C5 at a concrete non-colliding annotation. -/
theorem c5_no_collision_check_witness :
    (combinedGtfGeneIds ["GENE1"]).count "CAR_CD19" = 1 :=
  c5_no_collision_check ["GENE1"] (by decide)

/-- C4 counterexample: the profiling step's in-place preprocessing
(`sc.pp.normalize_total` followed by `sc.pp.log1p`) changes the
cell-by-gene values — on a one-cell, one-gene matrix with raw count 1 the
stored value becomes `log 10001 ≠ 1` — so the count matrix is not read-only
after the alignment step. -/
theorem c4_counterexample : profileX [[(1 : ℚ)]] ≠ [[(1 : ℝ)]] := by
  intro h
  rw [profileX_one_eval] at h
  have h1 : Real.log 10001 = (1 : ℝ) := by simpa using h
  have hlt := one_lt_log_ten_thousand_one
  rw [h1] at hlt
  exact lt_irrefl _ hlt

/-- C4 amended: the on-disk matrix is read once and the classification and
export steps never modify the in-memory cell-by-gene values (classification
only adds `obs` columns, and the CSV export does not even read the matrix),
but the profiling step does modify them, overwriting `adata.X` with
total-count-normalized, log1p-transformed values. -/
theorem c4_matrix_frame :
    (∀ s : Session, ((classify51 s).1).X = s.X) ∧
    (∀ (s : Session) (X' : List (List ℚ)), exportCsv (setX s X') = exportCsv s) ∧
    (∃ Y : List (List ℚ),
      profileX Y ≠ Y.map (fun row => row.map (fun q => (q : ℝ)))) := by
  refine ⟨?_, ?_, ⟨[[(1 : ℚ)]], ?_⟩⟩
  · intro s
    unfold classify51
    split <;> rfl
  · intro s X'
    rfl
  · intro h
    rw [profileX_one_eval] at h
    simp only [List.map_cons, List.map_nil, Rat.cast_one] at h
    have h1 : Real.log 10001 = (1 : ℝ) := by simpa using h
    have hlt := one_lt_log_ten_thousand_one
    rw [h1] at hlt
    exact lt_irrefl _ hlt

/-- C6: on the matrix whose engineered-gene column is `[0,0,3,0,7]` the
classifier flags `[false,false,true,false,true]` and reports 2 positive
cells out of 5, i.e. 40 percent; and in general, whenever the engineered
gene is present, every cell's flag is exactly `(raw count > 0)`. -/
theorem c6_threshold_classifier :
    ((classify51 (mkLoaded ["CAR_CD19"] [[0], [0], [3], [0], [7]])).1.carPositive
        = some [false, false, true, false, true] ∧
      (classify51 (mkLoaded ["CAR_CD19"] [[0], [0], [3], [0], [7]])).2
        = CarReport.found 2 40) ∧
    ∀ s : Session, "CAR_CD19" ∈ s.varNames →
      (classify51 s).1.carPositive
        = some ((carCol s).map (fun c => decide (0 < c))) := by
  refine ⟨⟨by decide, ?_⟩, ?_⟩
  · rw [show (40 : ℚ) = (2 : ℚ) / 5 * 100 from by norm_num]
    rfl
  · intro s h
    simp [classify51, h]

/-- Witness for C6's general clause at a concrete one-cell matrix. -/
theorem c6_threshold_classifier_witness :
    (classify51 (mkLoaded ["CAR_CD19"] [[5]])).1.carPositive = some [true] := by
  have h := c6_threshold_classifier.2 (mkLoaded ["CAR_CD19"] [[5]]) (by decide)
  rw [h]
  decide

/-- C7: in the scoring loop, a subset none of whose markers occur in the
dataset contributes no score column, while a subset with at least one
present marker is scored on exactly its present markers; the loop is a total
function, so a skipped subset never aborts the run. -/
theorem c7_subset_scoring (varNames : List String)
    (score : List String → List ℚ) (markerSets : List (String × List String))
    (name : String) (markers : List String)
    (hnd : (markerSets.map Prod.fst).Nodup)
    (hmem : (name, markers) ∈ markerSets) :
    (markers.filter (fun m => decide (m ∈ varNames)) = [] →
      ∀ col : List ℚ,
        (name ++ "_score", col) ∉ scoreSubsetsLoop varNames score markerSets) ∧
    (markers.filter (fun m => decide (m ∈ varNames)) ≠ [] →
      (name ++ "_score", score (markers.filter (fun m => decide (m ∈ varNames))))
        ∈ scoreSubsetsLoop varNames score markerSets) := by
  constructor
  · intro hempty col hcol
    obtain ⟨p, hp, hf⟩ := List.mem_filterMap.mp hcol
    obtain ⟨pn, pm⟩ := p
    dsimp only [scoreSubsetsLoop] at hf
    by_cases hpe : (pm.filter (fun m => decide (m ∈ varNames))).isEmpty
    · simp [hpe] at hf
    · simp only [hpe, Bool.false_eq_true, if_false, Option.some.injEq,
        Prod.mk.injEq] at hf
      have hname : pn = name := string_append_right_cancel hf.1
      have hpmem : (name, pm) ∈ markerSets := by
        rw [← hname]
        exact hp
      have hval : pm = markers := value_eq_of_nodup_keys hnd hpmem hmem
      apply hpe
      rw [hval, hempty]
      rfl
  · intro hne
    apply List.mem_filterMap.mpr
    refine ⟨(name, markers), hmem, ?_⟩
    have h1 : (markers.filter (fun m => decide (m ∈ varNames))).isEmpty = false := by
      cases hl : (markers.filter (fun m => decide (m ∈ varNames))).isEmpty
      · rfl
      · exact absurd (List.isEmpty_iff.mp hl) hne
    dsimp only [scoreSubsetsLoop]
    simp [h1]

/-- Witness for C7: with only `CD4` in the dataset, the `CD4+ T` subset is
scored on exactly the present marker list `["CD4"]`. -/
theorem c7_subset_scoring_witness :
    ("CD4+ T" ++ "_score", constScore ["CD4"])
      ∈ scoreSubsetsLoop ["CD4"] constScore tCellMarkers := by
  have h := (c7_subset_scoring ["CD4"] constScore tCellMarkers "CD4+ T"
    ["CD4", "IL7R"] (by decide) (by decide)).2 (by decide)
  revert h
  decide

/-- C9: the exported CSV's rows are exactly the CAR-positive cells: a row is
in the output of the boolean-mask selection iff it is an input `obs` row
whose `car_positive` flag is true. -/
theorem c9_csv_only_positive (rows : List CellRow) (r : CellRow) :
    r ∈ carPositiveCells rows ↔ r ∈ rows ∧ r.carPositive = true := by
  simp [carPositiveCells, List.mem_filter]

/-- C10 counterexample: on a loaded matrix lacking the engineered gene, the
run does not reach sections 5.3-5.5 at all: the classifier's else branch
creates no `car_positive` column, so section 5.2's unguarded
`sc.pl.umap(adata, color='car_positive')` raises and the workflow halts —
no guard is exercised, no CSV and no dataset file are written, refuting the
claim that the workflow does not halt and still writes the dataset. -/
theorem c10_counterexample :
    ("CAR_CD19" ∉ ["GENE1"]) ∧
    postLoad [0, 0] constScore (mkLoaded ["GENE1"] [[0], [2]])
      = Except.error umapKeyError :=
  ⟨by decide, rfl⟩

/-- C10 amended: if the engineered gene identifier is absent from the
loaded matrix (and no gene is literally named `car_positive`), the workflow
halts in section 5.2: the classifier leaves the `car_positive` column
uncreated and the unguarded `sc.pl.umap(color='car_positive')` raises, so
the guarded differential-expression, subset-comparison and CSV-export steps
never execute and the annotated dataset file is never written; the guards
of sections 5.3-5.5 would skip those steps only if execution reached
them. -/
theorem c10_halts_at_umap (varNames : List String) (X : List (List ℚ))
    (clusters : List Nat) (score : List String → List ℚ)
    (h : "CAR_CD19" ∉ varNames) (h2 : "car_positive" ∉ varNames) :
    postLoad clusters score (mkLoaded varNames X)
      = Except.error umapKeyError := by
  simp [postLoad, classify51, viz52, mkLoaded, h, h2]

/-- Witness for the amended C10 at a concrete dataset lacking the
engineered gene. -/
theorem c10_halts_at_umap_witness :
    postLoad [0, 0] constScore (mkLoaded ["CD4"] [[1], [0]])
      = Except.error umapKeyError :=
  c10_halts_at_umap ["CD4"] [[1], [0]] [0, 0] constScore (by decide)
    (by decide)
